import Mathlib

/-!
Shallow embedding of the tree-gen Conan recipe (`conanfile.py`): the
`TreeGenConan` class and the recipe lifecycle it participates in.

The recipe's own method bodies (`config_options`, `layout`, `generate`,
`build`, `package`, `package_info`) are translated directly from
`src/conanfile.py`.  The external collaborators the recipe calls into
(`cmake_layout`, the `CMake` build-system wrapper, the install step) and
the lifecycle sequencing that invokes the methods are not part of the
repository source; where a claim depends on them they are modelled from
the specification, and each such definition is marked with a doc comment
starting with `Modelled from the spec:`.
-/

/-- Settings: the immutable tuple of platform axes declared by
`settings = "os", "compiler", "build_type", "arch"` (conanfile.py line 17).
Each axis carries its externally supplied identifier. -/
structure Settings where
  os : String
  compiler : String
  build_type : String
  arch : String
deriving DecidableEq, Repr

/-- The active option mapping: option name to currently selected boolean
value, as in `options = {"shared": [True, False], "fPIC": [True, False]}`
(conanfile.py line 18).  Represented as an association list so that an
option can be deleted from the mapping entirely. -/
abbrev Options := List (String × Bool)

/-- `default_options = {"shared": False, "fPIC": True}` (conanfile.py line 19). -/
def default_options : Options := [("shared", false), ("fPIC", true)]

/-- The error taxonomy of the recipe evaluation, from the spec's section 7.
The source under `src/` raises none of these itself; they are the failure
channels of the lifecycle and of the external collaborators. -/
inductive RecipeError where
  | UnresolvedSettingError
  | IoError
  | SequenceError
  | BuildFailure
  | PackagingError
deriving DecidableEq, Repr

/-- `del self.options.fPIC` semantics on the option mapping: remove the
entry with the given name from the mapping (a no-op when the name is
already absent). -/
def delOption (k : String) (o : Options) : Options :=
  o.filter (fun p => p.1 ≠ k)

/-- `TreeGenConan.config_options` (conanfile.py lines 24-26):

    if self.settings.os == "Windows":
        del self.options.fPIC

The result type exposes the evaluation's error channel; the body, taken
from the source, never takes it. -/
def config_options (s : Settings) (o : Options) : Except RecipeError Options :=
  if s.os = "Windows" then .ok (delOption "fPIC" o) else .ok o

/-- `os.path.join` as used by the recipe, with the POSIX separator. -/
def pathJoin (a b : String) : String := a ++ "/" ++ b

/-- The derived directory roles computed by the layout phase. -/
structure Layout where
  source_folder : String
  build_folder : String
  package_folder : String
deriving DecidableEq, Repr

/-- Modelled from the spec: `cmake_layout` (conan.tools.cmake, called by
`TreeGenConan.layout`, conanfile.py lines 28-29) is not repository source.
Per spec section 4.2 it is a pure function from (Settings, resolved
Options) to the canonical source/build/package roots, deterministic, with
no side effect beyond path computation; build roots are namespaced by the
settings so distinct configurations do not collide. -/
def cmake_layout (s : Settings) (o : Options) : Layout :=
  { source_folder := "."
  , build_folder := pathJoin "build" s.build_type
  , package_folder := pathJoin "package" (s.os ++ "-" ++ s.arch ++ "-" ++ toString (o.length)) }

/-- `TreeGenConan.layout` (conanfile.py lines 28-29) as a phase over the
evaluation state: it computes the Layout from settings and options and
touches nothing else.  The ambient filesystem is threaded explicitly (as
the list of existing paths) to express that the phase does not mutate it. -/
def layoutPhase (s : Settings) (o : Options) (fs : List String) : Layout × List String :=
  (cmake_layout s o, fs)

/-- State of one `CMake` build-system wrapper object. -/
structure CMakeState where
  configured : Bool
deriving DecidableEq, Repr

/-- `CMake(self)`: a freshly constructed wrapper has not been configured. -/
def cmakeNew : CMakeState := { configured := false }

/-- Modelled from the spec: `cmake.configure()` prepares the underlying
build system's internal graph and moves the wrapper into the configured
state (spec section 4.4). -/
def cmakeConfigure (c : CMakeState) : CMakeState :=
  { c with configured := true }

/-- Modelled from the spec: `cmake.build()` triggers compilation.  Calling
it before `configure()` fails with a `SequenceError`; otherwise the
underlying tool either succeeds or its failure surfaces as `BuildFailure`
(spec section 4.4).  `buildOk` stands for the external tool's outcome. -/
def cmakeBuild (buildOk : Bool) (c : CMakeState) : Except RecipeError CMakeState :=
  if c.configured then
    if buildOk then .ok c else .error .BuildFailure
  else .error .SequenceError

/-- `TreeGenConan.build` (conanfile.py lines 35-38):

    cmake = CMake(self)
    cmake.configure()
    cmake.build()

The settings/options context is carried by `self`; the underlying build
tool's outcome is the parameter `buildOk`. -/
def buildStep (s : Settings) (o : Options) (buildOk : Bool) : Except RecipeError CMakeState :=
  let cmake := cmakeNew
  let cmake := cmakeConfigure cmake
  cmakeBuild buildOk cmake

/-- Modelled from the spec: `cmake.install()` installs the compiled library
artifact, named per the recipe's static library-name declaration
(`tree-lib`), into the package root, or fails with a `PackagingError` when
an expected output artifact is missing (spec sections 4.5 and 6); the
repository's own CMake build scripts that define the installed targets are
not under `src/`.  `installOk` stands for whether the expected outputs are
present; `pkgRoot` is the package root's contents before the install. -/
def cmakeInstall (installOk : Bool) (pkgRoot : List String) : Except RecipeError (List String) :=
  if installOk then .ok (pkgRoot ++ ["tree-lib"]) else .error .PackagingError

/-- `TreeGenConan.package` (conanfile.py lines 40-43):

    cmake = CMake(self)
    self.copy(pattern="tree-gen-utility.cmake", src=..., dst=...)
    cmake.install()

The `self.copy` call places `cmake/tree-gen-utility.cmake` under the
package root; `cmake.install()` then installs the built artifacts.  The
result is the package root's contents after a successful install. -/
def packageStep (s : Settings) (installOk : Bool) : Except RecipeError (List String) :=
  let copied := [pathJoin "cmake" "tree-gen-utility.cmake"]
  cmakeInstall installOk copied

/-- The exported consumption metadata (spec section 6). -/
structure PackageInfo where
  libs : List String
  build_modules : List String
deriving DecidableEq, Repr

/-- `TreeGenConan.package_info` (conanfile.py lines 45-47):

    self.cpp_info.set_property("cmake_build_modules", [os.path.join("cmake", "tree-gen-utility.cmake")])
    self.cpp_info.libs = ["tree-lib"]

The body reads the settings/options context (`self`) but uses none of it. -/
def package_info (s : Settings) (o : Options) : PackageInfo :=
  { libs := ["tree-lib"]
  , build_modules := [pathJoin "cmake" "tree-gen-utility.cmake"] }

/-- The lifecycle phases of one recipe evaluation, in invocation order. -/
inductive Phase where
  | configOptions
  | layoutP
  | generate
  | build
  | package
  | packageInfo
deriving DecidableEq, Repr

/-- Modelled from the spec: `TreeGenConan.generate` (conanfile.py lines
31-33) calls the external `CMakeToolchain` emitter, which writes the
toolchain artifact into the build root or fails with an `IoError` when the
build root is not writable (spec section 4.3).  `writable` stands for that
external condition; the result is the emitted artifact's path. -/
def generateStep (lay : Layout) (writable : Bool) : Except RecipeError String :=
  if writable then .ok (pathJoin lay.build_folder "conan_toolchain.cmake") else .error .IoError

/-- Modelled from the spec: one recipe evaluation is the strictly ordered,
fail-fast forward pass through the lifecycle phases (spec sections 2 and
7); each phase's body is the recipe method embedded above.  Returns the
list of phases that actually ran together with the outcome: the exported
`PackageInfo` on success, the aborting error otherwise. -/
def evaluate (s : Settings) (writable buildOk installOk : Bool) :
    List Phase × Except RecipeError PackageInfo :=
  match config_options s default_options with
  | .error e => ([Phase.configOptions], .error e)
  | .ok opts =>
    let lay := (layoutPhase s opts []).1
    match generateStep lay writable with
    | .error e => ([Phase.configOptions, Phase.layoutP, Phase.generate], .error e)
    | .ok _tc =>
      match buildStep s opts buildOk with
      | .error e =>
        ([Phase.configOptions, Phase.layoutP, Phase.generate, Phase.build], .error e)
      | .ok _c =>
        match packageStep s installOk with
        | .error e =>
          ([Phase.configOptions, Phase.layoutP, Phase.generate, Phase.build, Phase.package],
           .error e)
        | .ok _produced =>
          ([Phase.configOptions, Phase.layoutP, Phase.generate, Phase.build, Phase.package,
            Phase.packageInfo],
           .ok (package_info s opts))

/-- Sample Settings used by witnesses: a Linux configuration. -/
def linuxSettings : Settings :=
  { os := "Linux", compiler := "gcc-12", build_type := "Release", arch := "x86_64" }

/-- Sample Settings used by witnesses: a Windows configuration. -/
def windowsSettings : Settings :=
  { os := "Windows", compiler := "msvc-193", build_type := "Release", arch := "x86_64" }

/-- Sample Settings with an unknown operating system value. -/
def unknownOsSettings : Settings :=
  { os := "", compiler := "gcc-12", build_type := "Release", arch := "x86_64" }

/-- Looking a key up after deleting a different key is looking it up in the
original mapping. -/
theorem lookup_delOption_ne (k j : String) (o : Options) (h : k ≠ j) :
    (delOption j o).lookup k = o.lookup k := by
  induction o with
  | nil => rfl
  | cons p t ih =>
    rcases p with ⟨a, b⟩
    by_cases hp : a = j
    · have hk : (k == a) = false := by rw [hp]; exact beq_eq_false_iff_ne.mpr h
      have hf : delOption j ((a, b) :: t) = delOption j t := by
        simp [delOption, hp]
      simp only [hf, ih, List.lookup, hk]
    · have hf : delOption j ((a, b) :: t) = (a, b) :: delOption j t := by
        simp [delOption, hp]
      cases hk : (k == a) with
      | true => simp only [hf, List.lookup, hk]
      | false => simp only [hf, List.lookup, hk, ih]

/-- C1: for every Settings whose operating system is not Windows, the
resolved option mapping produced by `config_options` from the default
options still contains the position-independent-code option `fPIC` (at its
default value `true`); for Windows, `fPIC` is absent from the resolved
mapping, and resolution completes without error in both cases. -/
theorem c1_fpic_presence (s : Settings) :
    (s.os ≠ "Windows" →
      ∃ r, config_options s default_options = .ok r ∧ r.lookup "fPIC" = some true) ∧
    (s.os = "Windows" →
      ∃ r, config_options s default_options = .ok r ∧ r.lookup "fPIC" = none) := by
  constructor
  · intro h
    refine ⟨default_options, ?_, by decide⟩
    simp [config_options, h]
  · intro h
    refine ⟨delOption "fPIC" default_options, ?_, by decide⟩
    simp [config_options, h]

/-- Witness for C1 at the concrete Linux and Windows settings. -/
theorem c1_fpic_presence_witness :
    (∃ r, config_options linuxSettings default_options = .ok r ∧ r.lookup "fPIC" = some true) ∧
    (∃ r, config_options windowsSettings default_options = .ok r ∧ r.lookup "fPIC" = none) :=
  ⟨(c1_fpic_presence linuxSettings).1 (by decide),
   (c1_fpic_presence windowsSettings).2 (by decide)⟩

/-- Resolution always succeeds, with the mapping determined by the Windows test. -/
theorem config_options_eq (s : Settings) (o : Options) :
    config_options s o = .ok (if s.os = "Windows" then delOption "fPIC" o else o) := by
  unfold config_options
  split <;> simp_all

/-- Counterexample to C2: at Settings whose operating system value is the
unknown (empty) identifier, option resolution does not fail with
`UnresolvedSettingError`; it succeeds and returns the mapping unchanged. -/
theorem c2_counterexample :
    config_options unknownOsSettings default_options ≠
      .error RecipeError.UnresolvedSettingError ∧
    config_options unknownOsSettings default_options = .ok default_options := by
  refine ⟨?_, rfl⟩
  intro hcontra
  simp [config_options, unknownOsSettings] at hcontra

/-- C2 amended: option resolution never fails — for every Settings,
including those whose operating system value is missing or unknown,
`config_options` returns a resolved mapping; any operating system other
than Windows (recognized or not) leaves the mapping unchanged, so an
unknown platform is silently treated like a non-Windows one rather than
raising `UnresolvedSettingError`. -/
theorem c2_resolution_never_fails (s : Settings) (o : Options) :
    (∃ r, config_options s o = .ok r) ∧
    (s.os ≠ "Windows" → config_options s o = .ok o) := by
  refine ⟨?_, ?_⟩
  · rw [config_options_eq]
    exact ⟨_, rfl⟩
  · intro h
    simp [config_options, h]

/-- Witness for the amended C2 at concrete unknown-os settings. -/
theorem c2_resolution_never_fails_witness :
    (∃ r, config_options unknownOsSettings default_options = .ok r) ∧
    config_options unknownOsSettings default_options = .ok default_options :=
  ⟨(c2_resolution_never_fails unknownOsSettings default_options).1,
   (c2_resolution_never_fails unknownOsSettings default_options).2 (by decide)⟩

/-- C3: option resolution is idempotent — for every Settings, resolving
the default option mapping once yields a mapping `r`, and resolving `r`
again succeeds and yields `r` itself. -/
theorem c3_resolution_idempotent (s : Settings) :
    ∃ r, config_options s default_options = .ok r ∧ config_options s r = .ok r := by
  by_cases hw : s.os = "Windows"
  · refine ⟨delOption "fPIC" default_options, by simp [config_options, hw], ?_⟩
    have hd : delOption "fPIC" (delOption "fPIC" default_options) =
        delOption "fPIC" default_options := by decide
    simp [config_options, hw, hd]
  · exact ⟨default_options, by simp [config_options, hw], by simp [config_options, hw]⟩

/-- C4: the Layout Manager is referentially transparent — for identical
(Settings, resolved Options) inputs the computed source/build/package
roots are identical whatever the ambient filesystem contains, and the
phase performs no filesystem mutation. -/
theorem c4_layout_referentially_transparent (s : Settings) (o : Options)
    (fs1 fs2 : List String) :
    (layoutPhase s o fs1).1 = (layoutPhase s o fs2).1 ∧
    (layoutPhase s o fs1).2 = fs1 :=
  ⟨rfl, rfl⟩

/-- C5: for every Settings/Options combination, invoking the build-system
wrapper's `build()` on a freshly constructed (unconfigured) wrapper fails
with `SequenceError`; and the recipe's `build` method only ever reaches
the underlying `build()` call on a wrapper that has been configured, so
the build call is never reached without a preceding configure call. -/
theorem c5_build_requires_configure (s : Settings) (o : Options) (buildOk : Bool) :
    cmakeBuild buildOk cmakeNew = .error RecipeError.SequenceError ∧
    buildStep s o buildOk = cmakeBuild buildOk (cmakeConfigure cmakeNew) ∧
    (cmakeConfigure cmakeNew).configured = true :=
  ⟨rfl, rfl, rfl⟩

/-- C6: if the install step during packaging reports a missing expected
output artifact, the evaluation aborts with a `PackagingError`, and the
Package Info Exporter phase is never run — no `PackageInfo` is produced
for the incomplete package. -/
theorem c6_install_failure_aborts (s : Settings) :
    (evaluate s true true false).2 = .error RecipeError.PackagingError ∧
    Phase.packageInfo ∉ (evaluate s true true false).1 := by
  rw [evaluate, config_options_eq]
  by_cases hw : s.os = "Windows" <;>
    simp [hw, generateStep, buildStep, cmakeNew, cmakeConfigure, cmakeBuild,
      packageStep, cmakeInstall]

/-- C7: after a successful packaging step, every artifact referenced by
the Package Info Exporter — each declared library name and each declared
auxiliary build-system module path — is among the package root's contents
produced by packaging: the declared set is a subset of the produced set. -/
theorem c7_declared_subset_produced (s s2 : Settings) (o : Options) (installOk : Bool)
    (produced : List String)
    (h : packageStep s installOk = .ok produced) :
    (package_info s2 o).libs ⊆ produced ∧
    (package_info s2 o).build_modules ⊆ produced := by
  cases installOk with
  | false => simp [packageStep, cmakeInstall] at h
  | true =>
    have hp : produced = [pathJoin "cmake" "tree-gen-utility.cmake", "tree-lib"] := by
      simp [packageStep, cmakeInstall] at h
      exact h.symm
    subst hp
    constructor <;> intro x hx <;> simp [package_info] at hx <;> simp [hx]

/-- Witness for C7 at the Linux settings with a successful install. -/
theorem c7_declared_subset_produced_witness :
    (package_info linuxSettings default_options).libs ⊆
      [pathJoin "cmake" "tree-gen-utility.cmake", "tree-lib"] ∧
    (package_info linuxSettings default_options).build_modules ⊆
      [pathJoin "cmake" "tree-gen-utility.cmake", "tree-lib"] :=
  c7_declared_subset_produced linuxSettings linuxSettings default_options true _ rfl

/-- C8: for Settings {os: Linux, compiler: gcc-12, build_type: Release,
arch: x86_64} with the default option mapping, option resolution yields
exactly the mapping shared = false, fPIC = true, and the full successful
pipeline runs every phase and exports a `PackageInfo` whose libraries are
exactly `tree-lib` (with the single auxiliary build module
`cmake/tree-gen-utility.cmake`). -/
theorem c8_linux_scenario :
    config_options linuxSettings default_options = .ok [("shared", false), ("fPIC", true)] ∧
    evaluate linuxSettings true true true =
      ([Phase.configOptions, Phase.layoutP, Phase.generate, Phase.build, Phase.package,
        Phase.packageInfo],
       .ok { libs := ["tree-lib"]
           , build_modules := [pathJoin "cmake" "tree-gen-utility.cmake"] }) :=
  ⟨rfl, rfl⟩

/-- C9: option resolution never alters the `shared` option — for every
Settings and every incoming option mapping in which `shared` is bound to a
value, the resolved mapping still binds `shared` to that same value, and
the resolved mapping is either the incoming mapping unchanged or the
incoming mapping with only the `fPIC` entry removed. -/
theorem c9_shared_preserved (s : Settings) (o : Options) (v : Bool)
    (h : o.lookup "shared" = some v) :
    ∃ r, config_options s o = .ok r ∧ r.lookup "shared" = some v ∧
      (r = o ∨ r = delOption "fPIC" o) := by
  by_cases hw : s.os = "Windows"
  · refine ⟨delOption "fPIC" o, by simp [config_options, hw], ?_, Or.inr rfl⟩
    rw [lookup_delOption_ne _ _ _ (by decide)]
    exact h
  · exact ⟨o, by simp [config_options, hw], h, Or.inl rfl⟩

/-- Witness for C9 at the Windows settings and the default mapping. -/
theorem c9_shared_preserved_witness :
    ∃ r, config_options windowsSettings default_options = .ok r ∧
      r.lookup "shared" = some false ∧
      (r = default_options ∨ r = delOption "fPIC" default_options) :=
  c9_shared_preserved windowsSettings default_options false (by decide)

/-- C10: the exported `PackageInfo` is a constant of the recipe — any two
Settings/Options contexts that reach the Package Info Exporter receive
identical metadata: libraries `tree-lib` and the single build module
`cmake/tree-gen-utility.cmake`, independent of operating system, build
type, architecture, and option values. -/
theorem c10_package_info_constant (s1 s2 : Settings) (o1 o2 : Options) :
    package_info s1 o1 = package_info s2 o2 ∧
    package_info s1 o1 =
      { libs := ["tree-lib"]
      , build_modules := [pathJoin "cmake" "tree-gen-utility.cmake"] } :=
  ⟨rfl, rfl⟩
